import Mathlib

/-!
Verification development for the Smart-Bike-Kafka drivers.

The Python drivers (`src/Drivers/smartbike/smartbike.py`,
`src/Drivers/heart_rate_sensor/heartrate_kafka.py`) are shallowly embedded:
byte strings become `List Nat`, Python floats become `ℚ`, fallible code
(index errors, attribute errors, `None`-comparison type errors) returns
`Except PyErr`, and object attributes become structure fields
(`Option` when an attribute may be unset).
-/

/-- Attribute names that code may read before they are assigned
(`TICKRDevice` in `smartbike.py` never initialises `zeroCount` / `zero_limit`). -/
inductive AttrName
  | zeroCount
  | zeroLimit
deriving DecidableEq

/-- The Python exceptions the embedded code can raise: `IndexError` from
`value[i]`, `TypeError` from comparing `None` with an int, and
`AttributeError` from reading an unset attribute. -/
inductive PyErr
  | indexError (i : Nat)
  | typeError
  | attributeError (a : AttrName)
deriving DecidableEq

/-- Embeds `value[i]` on a byte string: the byte, or `IndexError` when out of bounds. -/
def readByte (v : List Nat) (i : Nat) : Except PyErr Nat :=
  match v.get? i with
  | some b => .ok b
  | none => .error (.indexError i)

/-- Embeds `(value[off+1] << 8) + value[off]` — little-endian u16; Python evaluates
`value[off+1]` first, so that is the index reported on a short packet. -/
def readU16 (v : List Nat) (off : Nat) : Except PyErr Nat :=
  match readByte v (off + 1) with
  | .error e => .error e
  | .ok hi =>
    match readByte v off with
    | .error e => .error e
    | .ok lo => .ok ((hi <<< 8) + lo)

/-- Embeds `(value[off+2] << 16) + (value[off+1] << 8) + value[off]` — u24,
`value[off+2]` evaluated first. -/
def readU24 (v : List Nat) (off : Nat) : Except PyErr Nat :=
  match readByte v (off + 2) with
  | .error e => .error e
  | .ok b2 =>
    match readByte v (off + 1) with
    | .error e => .error e
    | .ok b1 =>
      match readByte v off with
      | .error e => .error e
      | .ok b0 => .ok ((b2 <<< 16) + (b1 <<< 8) + b0)

/-- The thirteen Indoor Bike Data flag attributes set by
`WahooData.reported_data`. -/
structure WahooFlags where
  instSpeed : Bool
  avgSpeed : Bool
  instCadence : Bool
  avgCadence : Bool
  totalDistance : Bool
  resistanceLevel : Bool
  instPower : Bool
  avgPower : Bool
  expendedEnergy : Bool
  heartRate : Bool
  metabolicEquivalent : Bool
  elapsedTime : Bool
  remainingTime : Bool
deriving DecidableEq

/-- Embeds `WahooData.reported_data`: decode the 16-bit flag field from the first two
bytes.  Bit 0 (instantaneous speed) has inverted polarity
(`not((value[0] & 1) >> 0)`); the other bits are used with Python truthiness. -/
def reported_data (v : List Nat) : Except PyErr WahooFlags :=
  match readByte v 0 with
  | .error e => .error e
  | .ok b0 =>
    match readByte v 1 with
    | .error e => .error e
    | .ok b1 =>
      .ok {
        instSpeed := (b0 &&& 1) >>> 0 == 0
        avgSpeed := (b0 &&& 2) >>> 1 != 0
        instCadence := (b0 &&& 4) >>> 2 != 0
        avgCadence := (b0 &&& 8) >>> 3 != 0
        totalDistance := (b0 &&& 16) >>> 4 != 0
        resistanceLevel := (b0 &&& 32) >>> 5 != 0
        instPower := (b0 &&& 64) >>> 6 != 0
        avgPower := (b0 &&& 128) >>> 7 != 0
        expendedEnergy := (b1 &&& 1) >>> 0 != 0
        heartRate := (b1 &&& 2) >>> 1 != 0
        metabolicEquivalent := (b1 &&& 4) >>> 2 != 0
        elapsedTime := (b1 &&& 8) >>> 3 != 0
        remainingTime := (b1 &&& 16) >>> 4 != 0 }

/-- The mutable attributes of `WahooData`: flag fields, the last decoded
sample values (`None` before first assignment), and the `idle` marker. -/
structure WahooState where
  flags : WahooFlags
  instantaneous_speed : Option ℚ
  average_speed : Option ℚ
  instantaneous_cadence : Option ℚ
  average_cadence : Option ℚ
  total_distance : Option Nat
  resistance_level : Option Nat
  instantaneous_power : Option Nat
  average_power : Option Nat
  expended_energy_total : Option Nat
  expended_energy_per_hour : Option Nat
  expended_energy_per_minute : Option Nat
  heart_rate : Option Nat
  metabolic_equivalent : Option ℚ
  elapsed_time : Option Nat
  remaining_time : Option Nat
  idle : Bool
deriving DecidableEq

/-- Embeds `WahooData.__init__`: every value `None`, `idle = False`, no flags set. -/
def initWahooState : WahooState :=
  { flags := ⟨false, false, false, false, false, false, false, false, false,
      false, false, false, false⟩
    instantaneous_speed := none
    average_speed := none
    instantaneous_cadence := none
    average_cadence := none
    total_distance := none
    resistance_level := none
    instantaneous_power := none
    average_power := none
    expended_energy_total := none
    expended_energy_per_hour := none
    expended_energy_per_minute := none
    heart_rate := none
    metabolic_equivalent := none
    elapsed_time := none
    remaining_time := none
    idle := false }

/-- Embeds `pull_value` block 1: instantaneous speed, u16, `/100.0*5.0/18.0` m/s. -/
def pull_instantaneous_speed (f : WahooFlags) (v : List Nat) (s : WahooState)
    (off : Nat) : Except PyErr (WahooState × Nat) :=
  if f.instSpeed then
    match readU16 v off with
    | .error e => .error e
    | .ok x =>
      .ok ({ s with instantaneous_speed := some ((x : ℚ) / 100 * 5 / 18) }, off + 2)
  else .ok (s, off)

/-- Embeds `pull_value` block 2: average speed, u16, `/100.0*5.0/18.0` m/s. -/
def pull_average_speed (f : WahooFlags) (v : List Nat) (s : WahooState)
    (off : Nat) : Except PyErr (WahooState × Nat) :=
  if f.avgSpeed then
    match readU16 v off with
    | .error e => .error e
    | .ok x =>
      .ok ({ s with average_speed := some ((x : ℚ) / 100 * 5 / 18) }, off + 2)
  else .ok (s, off)

/-- Embeds `pull_value` block 3: instantaneous cadence, u16, `/10.0` rpm. -/
def pull_instantaneous_cadence (f : WahooFlags) (v : List Nat) (s : WahooState)
    (off : Nat) : Except PyErr (WahooState × Nat) :=
  if f.instCadence then
    match readU16 v off with
    | .error e => .error e
    | .ok x =>
      .ok ({ s with instantaneous_cadence := some ((x : ℚ) / 10) }, off + 2)
  else .ok (s, off)

/-- Embeds `pull_value` block 4: average cadence, u16, `/10.0` rpm. -/
def pull_average_cadence (f : WahooFlags) (v : List Nat) (s : WahooState)
    (off : Nat) : Except PyErr (WahooState × Nat) :=
  if f.avgCadence then
    match readU16 v off with
    | .error e => .error e
    | .ok x =>
      .ok ({ s with average_cadence := some ((x : ℚ) / 10) }, off + 2)
  else .ok (s, off)

/-- Embeds `pull_value` block 5: total distance, u24 metres. -/
def pull_total_distance (f : WahooFlags) (v : List Nat) (s : WahooState)
    (off : Nat) : Except PyErr (WahooState × Nat) :=
  if f.totalDistance then
    match readU24 v off with
    | .error e => .error e
    | .ok x => .ok ({ s with total_distance := some x }, off + 3)
  else .ok (s, off)

/-- Embeds `pull_value` block 6: resistance level, u16. -/
def pull_resistance_level (f : WahooFlags) (v : List Nat) (s : WahooState)
    (off : Nat) : Except PyErr (WahooState × Nat) :=
  if f.resistanceLevel then
    match readU16 v off with
    | .error e => .error e
    | .ok x => .ok ({ s with resistance_level := some x }, off + 2)
  else .ok (s, off)

/-- Embeds `pull_value` block 7: instantaneous power, read as a plain u16
(`int((value[offset+1] << 8) + value[offset])`, no sign handling). -/
def pull_instantaneous_power (f : WahooFlags) (v : List Nat) (s : WahooState)
    (off : Nat) : Except PyErr (WahooState × Nat) :=
  if f.instPower then
    match readU16 v off with
    | .error e => .error e
    | .ok x => .ok ({ s with instantaneous_power := some x }, off + 2)
  else .ok (s, off)

/-- Embeds `pull_value` block 8: average power, plain u16. -/
def pull_average_power (f : WahooFlags) (v : List Nat) (s : WahooState)
    (off : Nat) : Except PyErr (WahooState × Nat) :=
  if f.avgPower then
    match readU16 v off with
    | .error e => .error e
    | .ok x => .ok ({ s with average_power := some x }, off + 2)
  else .ok (s, off)

/-- Embeds `pull_value` block 9: expended-energy group — u16 total (sentinel 0xFFFF),
u16 per hour (sentinel 0xFFFF), u8 per minute (sentinel 0xFF); a sentinel
leaves the attribute unassigned. -/
def pull_expended_energy (f : WahooFlags) (v : List Nat) (s : WahooState)
    (off : Nat) : Except PyErr (WahooState × Nat) :=
  if f.expendedEnergy then
    match readU16 v off with
    | .error e => .error e
    | .ok t =>
      let s := if t ≠ 0xFFFF then { s with expended_energy_total := some t } else s
      match readU16 v (off + 2) with
      | .error e => .error e
      | .ok h =>
        let s := if h ≠ 0xFFFF then { s with expended_energy_per_hour := some h } else s
        match readByte v (off + 4) with
        | .error e => .error e
        | .ok m =>
          let s := if m ≠ 0xFF then { s with expended_energy_per_minute := some m } else s
          .ok (s, off + 5)
  else .ok (s, off)

/-- Embeds `pull_value` block 10: heart rate, u8 bpm. -/
def pull_heart_rate (f : WahooFlags) (v : List Nat) (s : WahooState)
    (off : Nat) : Except PyErr (WahooState × Nat) :=
  if f.heartRate then
    match readByte v off with
    | .error e => .error e
    | .ok x => .ok ({ s with heart_rate := some x }, off + 1)
  else .ok (s, off)

/-- Embeds `pull_value` block 11: metabolic equivalent, u8, `/10.0`. -/
def pull_metabolic_equivalent (f : WahooFlags) (v : List Nat) (s : WahooState)
    (off : Nat) : Except PyErr (WahooState × Nat) :=
  if f.metabolicEquivalent then
    match readByte v off with
    | .error e => .error e
    | .ok x => .ok ({ s with metabolic_equivalent := some ((x : ℚ) / 10) }, off + 1)
  else .ok (s, off)

/-- Embeds `pull_value` block 12: elapsed time, u16 seconds. -/
def pull_elapsed_time (f : WahooFlags) (v : List Nat) (s : WahooState)
    (off : Nat) : Except PyErr (WahooState × Nat) :=
  if f.elapsedTime then
    match readU16 v off with
    | .error e => .error e
    | .ok x => .ok ({ s with elapsed_time := some x }, off + 2)
  else .ok (s, off)

/-- Embeds `pull_value` block 13: remaining time, u16 seconds. -/
def pull_remaining_time (f : WahooFlags) (v : List Nat) (s : WahooState)
    (off : Nat) : Except PyErr (WahooState × Nat) :=
  if f.remainingTime then
    match readU16 v off with
    | .error e => .error e
    | .ok x => .ok ({ s with remaining_time := some x }, off + 2)
  else .ok (s, off)

/-- The thirteen field blocks of `WahooData.pull_value`, in source order,
threading the mutated state and the read offset. -/
def pull_fields (f : WahooFlags) (v : List Nat) (s : WahooState) (off : Nat) :
    Except PyErr (WahooState × Nat) :=
  match pull_instantaneous_speed f v s off with
  | .error e => .error e
  | .ok (s, off) =>
  match pull_average_speed f v s off with
  | .error e => .error e
  | .ok (s, off) =>
  match pull_instantaneous_cadence f v s off with
  | .error e => .error e
  | .ok (s, off) =>
  match pull_average_cadence f v s off with
  | .error e => .error e
  | .ok (s, off) =>
  match pull_total_distance f v s off with
  | .error e => .error e
  | .ok (s, off) =>
  match pull_resistance_level f v s off with
  | .error e => .error e
  | .ok (s, off) =>
  match pull_instantaneous_power f v s off with
  | .error e => .error e
  | .ok (s, off) =>
  match pull_average_power f v s off with
  | .error e => .error e
  | .ok (s, off) =>
  match pull_expended_energy f v s off with
  | .error e => .error e
  | .ok (s, off) =>
  match pull_heart_rate f v s off with
  | .error e => .error e
  | .ok (s, off) =>
  match pull_metabolic_equivalent f v s off with
  | .error e => .error e
  | .ok (s, off) =>
  match pull_elapsed_time f v s off with
  | .error e => .error e
  | .ok (s, off) =>
  match pull_remaining_time f v s off with
  | .error e => .error e
  | .ok (s, off) => .ok (s, off)

/-- Total packet length implied by a flag field: 2 flag bytes plus the width
of each flagged field. -/
def required_length (f : WahooFlags) : Nat :=
  2 + (if f.instSpeed then 2 else 0) + (if f.avgSpeed then 2 else 0) +
    (if f.instCadence then 2 else 0) + (if f.avgCadence then 2 else 0) +
    (if f.totalDistance then 3 else 0) + (if f.resistanceLevel then 2 else 0) +
    (if f.instPower then 2 else 0) + (if f.avgPower then 2 else 0) +
    (if f.expendedEnergy then 5 else 0) + (if f.heartRate then 1 else 0) +
    (if f.metabolicEquivalent then 1 else 0) + (if f.elapsedTime then 2 else 0) +
    (if f.remainingTime then 2 else 0)

/-- Embeds `WahooData.pull_value`: run the field blocks from offset 2 and flag
(`logger.info("ERROR: Payload was not parsed correctly")`) when the final
offset differs from the packet length.  The already-assigned field values are
kept either way. -/
def pull_value (f : WahooFlags) (s : WahooState) (v : List Nat) :
    Except PyErr (WahooState × Bool) :=
  match pull_fields f v s 2 with
  | .error e => .error e
  | .ok (s, off) => .ok (s, off != v.length)

/-- Embeds `WahooData.reported_data` followed by `WahooData.pull_value` — the Indoor
Bike Data decoder proper.  The `Bool` is true when the parse-error branch was
taken (offset mismatch logged). -/
def decode_packet (s : WahooState) (v : List Nat) :
    Except PyErr (WahooState × Bool) :=
  match reported_data v with
  | .error e => .error e
  | .ok f => pull_value f { s with flags := f } v

/-- Observable outputs of the `WahooData` publishing path.  `disconnect` is
included so "the session remains connected" is expressible; the decode path
never constructs it. -/
inductive WahooAction
  | pubSpeed (value : Option ℚ)
  | pubCadence (value : Option ℚ)
  | pubPower (value : Option Nat)
  | disconnect
deriving DecidableEq

/-- Embeds `WahooData.publish`: publish instantaneous speed, cadence and power to
their report topics when the corresponding flag is set. -/
def wahoo_publish (s : WahooState) : List WahooAction :=
  (if s.flags.instSpeed then [.pubSpeed s.instantaneous_speed] else []) ++
    (if s.flags.instCadence then [.pubCadence s.instantaneous_cadence] else []) ++
    (if s.flags.instPower then [.pubPower s.instantaneous_power] else [])

/-- Embeds `WahooData.publish_data`: publish when cadence is positive, else publish
once more while entering the idle state.  Comparing a never-assigned cadence
(`None > 0`) raises `TypeError`, as in Python 3. -/
def publish_data (s : WahooState) : Except PyErr (WahooState × List WahooAction) :=
  match s.instantaneous_cadence with
  | none => .error .typeError
  | some c =>
    if c > 0 ∨ c > 0 then
      .ok ({ s with idle := false }, wahoo_publish s)
    else
      if !s.idle then .ok ({ s with idle := true }, wahoo_publish s)
      else .ok (s, [])

/-- Embeds `WahooData.process_data`: `reported_data`, `pull_value`, `publish_data` in
sequence.  The middle `Bool` records whether the parse-error branch fired;
note `publish_data` runs regardless of it. -/
def process_data (s : WahooState) (v : List Nat) :
    Except PyErr (WahooState × Bool × List WahooAction) :=
  match reported_data v with
  | .error e => .error e
  | .ok f =>
    let s := { s with flags := f }
    match pull_value f s v with
    | .error e => .error e
    | .ok (s, pe) =>
      match publish_data s with
      | .error e => .error e
      | .ok (s, evs) => .ok (s, pe, evs)

/-- The four Control Point response type constants of `smartbike.py`
(`WRITE_SUCCESS, WRITE_FAIL, NOTIFICATION_SUCCESS, NOTIFICATION_FAIL`). -/
inductive RespType
  | writeSuccess
  | writeFail
  | notificationSuccess
  | notificationFail
deriving DecidableEq

/-- The mutable attributes of a `SubDevice` control channel:
`_internal_value` (committed), `_new_internal_value` (pending human value),
`_new_write_value` (pending wire bytes), the `terminate_write` flag, the
`write_timeout_count` failure counter, and the uuid of the control-point
characteristic once discovered. -/
structure SubState where
  internalValue : Option ℚ
  newInternalValue : Option ℚ
  newWriteValue : Option (List Nat)
  terminate_write : Bool
  write_timeout_count : Nat
  controlPoint : Option Nat
deriving DecidableEq

/-- Observable actions of a `SubDevice`: a transport write to the control
point, a success report on the report topic (carrying `_internal_value`),
re-enabling notifications, and the `MQTT COMMAND FAIL` validation log. -/
inductive SubAction
  | write (bytes : List Nat)
  | report (value : Option ℚ)
  | enableNotifications
  | logRejection (value : ℚ)
deriving DecidableEq

/-- Embeds `SubDevice._TIMEOUT`. -/
def SUB_TIMEOUT : Nat := 10

/-- Embeds `SubDevice.write_process`: runs once in the freshly started write thread;
writes `_new_write_value` to the control point unless already terminated with
an exhausted counter.  (With the control point unset the thread would die on
`AttributeError` before writing; no write is issued.) -/
def write_process (s : SubState) : SubState × List SubAction :=
  if ¬(s.terminate_write = true ∧ SUB_TIMEOUT ≤ s.write_timeout_count) then
    match s.controlPoint, s.newWriteValue with
    | some _, some bytes => (s, [.write bytes])
    | _, _ => (s, [])
  else (s, [])

/-- Embeds `SubDevice.write_value`: record the new wire bytes, terminate and join any
previous write thread, reset the flag and counter, and start a new thread
running `write_process` (modelled as running immediately). -/
def write_value (s : SubState) (val : List Nat) : SubState × List SubAction :=
  let s := { s with newWriteValue := some val, terminate_write := true }
  let s := { s with terminate_write := false, write_timeout_count := 0 }
  write_process s

/-- Embeds `SubDevice.control_point_response`: ignore responses when the control
point is unset or the characteristic uuid differs; commit and report on
`WRITE_SUCCESS`; count a `WRITE_FAIL`; re-enable notifications on
`NOTIFICATION_FAIL`. -/
def control_point_response (s : SubState) (uuid : Nat) (rt : RespType) :
    SubState × List SubAction :=
  match s.controlPoint with
  | none => (s, [])
  | some cp =>
    if uuid ≠ cp then (s, [])
    else
      match rt with
      | .writeSuccess =>
        let s := { s with terminate_write := true, internalValue := s.newInternalValue }
        (s, [.report s.internalValue])
      | .writeFail =>
        ({ s with write_timeout_count := s.write_timeout_count + 1 }, [])
      | .notificationSuccess => (s, [])
      | .notificationFail => (s, [.enableNotifications])

/-- Modelled from the spec: `lib/constants.py` is not under `src/`.  The spec
gives the incline range as −10…19, matching the driver's own rejection log
`value must be in range 19 to -10`. -/
def INCLINE_MIN : ℚ := -10

/-- Modelled from the spec: `lib/constants.py` is not under `src/`; upper
incline bound. -/
def INCLINE_MAX : ℚ := 19

/-- Modelled from the spec: `lib/constants.py` is not under `src/`; the
incline opcode byte prefixed to the encoded payload.  Its concrete value is
irrelevant to the claims. -/
def INCLINE_CONTROL_OP_CODE : Nat := 0x66

/-- Python float `%`: `a % b = a - b * floor(a / b)` (result has the sign of
the divisor). -/
def pymod (a b : ℚ) : ℚ := a - b * ⌊a / b⌋

/-- Modelled from the spec: `lib/ble_helper.convert_incline_to_op_value` is
not under `src/`.  Per the spec the payload is a two's-complement byte
sequence built from the signed value scaled for the wire format; modelled as
the 16-bit two's complement of the value scaled by 100, little-endian. -/
def convert_incline_to_op_value (v : ℚ) : List Nat :=
  let w : Nat := (⌊v * 100⌋ % 65536).toNat
  [w % 256, w / 256]

/-- Embeds `Climber.on_message`: on a `/incline/control` topic, accept the value when
it is in `[INCLINE_MIN, INCLINE_MAX]` and `value % 0.5 == 0`, store it as
`_new_internal_value` and write the encoded bytes; otherwise log
`MQTT COMMAND FAIL` with the range, resolution and offending value.
(Topic routing and JSON payload extraction happen upstream and are modelled
by the `topicMatches` flag and the already-extracted value.) -/
def climber_on_message (s : SubState) (topicMatches : Bool) (incline : ℚ) :
    SubState × List SubAction :=
  if topicMatches then
    if INCLINE_MIN ≤ incline ∧ incline ≤ INCLINE_MAX ∧ pymod incline (1/2) = 0 then
      let s := { s with newInternalValue := some incline }
      write_value s (INCLINE_CONTROL_OP_CODE :: convert_incline_to_op_value incline)
    else (s, [.logRejection incline])
  else (s, [])

/-- An event delivered to the incline control channel: an inbound command
message, or a control-point response forwarded by the controller. -/
inductive SubEvent
  | message (topicMatches : Bool) (incline : ℚ)
  | response (uuid : Nat) (rt : RespType)

/-- One step of the control channel. -/
def sub_step (s : SubState) (e : SubEvent) : SubState × List SubAction :=
  match e with
  | .message t v => climber_on_message s t v
  | .response u rt => control_point_response s u rt

/-- Run a sequence of events, concatenating the emitted actions. -/
def sub_run (s : SubState) (es : List SubEvent) : SubState × List SubAction :=
  match es with
  | [] => (s, [])
  | e :: rest =>
    let (s1, a1) := sub_step s e
    let (s2, a2) := sub_run s1 rest
    (s2, a1 ++ a2)

/-- Number of transport writes in an action trace. -/
def count_writes (acts : List SubAction) : Nat :=
  (acts.filter fun a => match a with | .write _ => true | _ => false).length

/-- Number of success reports in an action trace. -/
def count_reports (acts : List SubAction) : Nat :=
  (acts.filter fun a => match a with | .report _ => true | _ => false).length

/-- A control channel that has discovered its control point (uuid 7) and has
no write in flight — the state after `services_resolved`. -/
def ready_channel : SubState :=
  { internalValue := none
    newInternalValue := none
    newWriteValue := none
    terminate_write := false
    write_timeout_count := 0
    controlPoint := some 7 }

/-- The attributes of `heartrate_kafka.AnyDevice` set at discovery
(`device.zero_limit = 10; device.zeroCount = 0`). -/
structure HRState where
  zeroCount : Nat
  zero_limit : Nat
deriving DecidableEq

/-- Observable actions of the Kafka heart-rate driver. -/
inductive HRAction
  | disconnect
  | publishHR (hr : Nat)
deriving DecidableEq

/-- Embeds `AnyDevice.characteristic_value_updated` of `heartrate_kafka.py`:
`heartrate = value[1]`; a zero reading increments `zeroCount` and, exactly
when the counter reaches `zero_limit`, resets it and disconnects; a nonzero
reading resets the counter and publishes. -/
def hr_characteristic_value_updated (s : HRState) (v : List Nat) :
    Except PyErr (HRState × List HRAction) :=
  match readByte v 1 with
  | .error e => .error e
  | .ok hr =>
    if hr = 0 then
      let s := { s with zeroCount := s.zeroCount + 1 }
      if s.zeroCount = s.zero_limit then .ok ({ s with zeroCount := 0 }, [.disconnect])
      else .ok (s, [])
    else .ok ({ s with zeroCount := 0 }, [.publishHR hr])

/-- Deliver a sequence of heart-rate packets, concatenating actions. -/
def hr_run (s : HRState) (vs : List (List Nat)) :
    Except PyErr (HRState × List HRAction) :=
  match vs with
  | [] => .ok (s, [])
  | v :: rest =>
    match hr_characteristic_value_updated s v with
    | .error e => .error e
    | .ok (s1, a1) =>
      match hr_run s1 rest with
      | .error e => .error e
      | .ok (s2, a2) => .ok (s2, a1 ++ a2)

/-- The `zeroCount` / `zero_limit` attributes of `TICKRDevice` in
`smartbike.py`; `none` models an attribute that was never assigned
(`TICKRDevice.__init__` sets neither, and nothing else does before the first
notification). -/
structure TickrState where
  zeroCount : Option Nat
  zero_limit : Option Nat
deriving DecidableEq

/-- Reading a possibly-unset attribute: `AttributeError` when unset. -/
def getAttr (a : Option Nat) (name : AttrName) : Except PyErr Nat :=
  match a with
  | some x => .ok x
  | none => .error (.attributeError name)

/-- Observable action of the TICKR driver in `smartbike.py`. -/
inductive TickrAction
  | publish (hr : Nat)
deriving DecidableEq

/-- Heart-rate parsing of `TICKRDevice.characteristic_value_updated`:
8-bit at offset 1, or 16-bit little-endian when bit 0 of the flag byte is
set; returns the value and the next offset. -/
def parse_heart_rate (v : List Nat) (b0 : Nat) : Except PyErr (Nat × Nat) :=
  if b0 &&& 1 ≠ 0 then
    match readU16 v 1 with
    | .error e => .error e
    | .ok hr => .ok (hr, 3)
  else
    match readByte v 1 with
    | .error e => .error e
    | .ok hr => .ok (hr, 2)

/-- The RR-interval loop: `for index in range(offset, len(value), 2)` reading
`value[index+1]` then `value[index]`, each interval `/1024.0` seconds.  An
odd remainder makes the last `value[index+1]` read go out of bounds, as in
the source. -/
def rr_intervals (v : List Nat) (i : Nat) : Except PyErr (List ℚ) :=
  if _h : i < v.length then
    match readByte v (i + 1) with
    | .error e => .error e
    | .ok hi =>
      match readByte v i with
      | .error e => .error e
      | .ok lo =>
        match rr_intervals v (i + 2) with
        | .error e => .error e
        | .ok rest => .ok ((((hi <<< 8) + lo : ℚ) / 1024) :: rest)
  else .ok []
termination_by v.length - i
decreasing_by omega

/-- The body of `TICKRDevice.characteristic_value_updated` guarded by
`not(heartrate == 0 and zeroCount >= zero_limit)`: sensor-contact parsing
(pure, unused), the zero-counter update (`zeroCount += 1` on zero, else
`zeroCount = 0` — a plain assignment needing no prior value), the optional
energy-expended u16, the optional RR intervals, then the publish. -/
def tickr_body (s : TickrState) (v : List Nat) (hr off : Nat)
    (energyexpended rrinterval : Bool) : Except PyErr (TickrState × List TickrAction) :=
  match (if hr = 0 then
          match getAttr s.zeroCount .zeroCount with
          | .error e => .error e
          | .ok zc => .ok { s with zeroCount := some (zc + 1) }
         else .ok { s with zeroCount := some 0 } : Except PyErr TickrState) with
  | .error e => .error e
  | .ok s =>
    match (if energyexpended then
            match readU16 v off with
            | .error e => .error e
            | .ok _ => .ok (off + 2)
           else .ok off : Except PyErr Nat) with
    | .error e => .error e
    | .ok off =>
      match (if rrinterval then
              match rr_intervals v off with
              | .error e => .error e
              | .ok _ => .ok 0
             else .ok 0 : Except PyErr Nat) with
      | .error e => .error e
      | .ok _ => .ok (s, [.publish hr])

/-- Embeds `TICKRDevice.characteristic_value_updated` (after the characteristic
identity check, which a delivered notification has already passed): read the
flag byte, parse the heart rate, then evaluate
`not(heartrate == 0 and self.zeroCount >= self.zero_limit)` — Python
short-circuit: the attribute reads happen only when `heartrate == 0`. -/
def tickr_characteristic_value_updated (s : TickrState) (v : List Nat) :
    Except PyErr (TickrState × List TickrAction) :=
  match readByte v 0 with
  | .error e => .error e
  | .ok b0 =>
    let energyexpended := (b0 &&& 8) >>> 3 != 0
    let rrinterval := (b0 &&& 16) >>> 4 != 0
    match parse_heart_rate v b0 with
    | .error e => .error e
    | .ok (hr, off) =>
      if hr = 0 then
        match getAttr s.zeroCount .zeroCount with
        | .error e => .error e
        | .ok zc =>
          match getAttr s.zero_limit .zeroLimit with
          | .error e => .error e
          | .ok zl =>
            if zc ≥ zl then .ok (s, [])
            else tickr_body s v hr off energyexpended rrinterval
      else tickr_body s v hr off energyexpended rrinterval

/-- Embeds `logging.DEBUG`. -/
def LOGGING_DEBUG : Nat := 10

/-- Embeds `logging.INFO`. -/
def LOGGING_INFO : Nat := 20

/-- Embeds `logger.setLevel(logging.INFO)` at module setup of `smartbike.py`. -/
def logger_level : Nat := LOGGING_INFO

/-- What `WahooDevice.connect_failed` does, as observable behavior: the level
of the one log record it creates, whether it terminates the session, and how
many reconnect attempts it makes. -/
structure ConnectFailedBehavior where
  log_level : Nat
  exits : Bool
  reconnect_attempts : Nat
deriving DecidableEq

/-- Embeds `WahooDevice.connect_failed`: `logger.debug("[...] Connection failed: ...")`
then `sys.exit()`; no reconnect is attempted.  (The vendored gatt base-class
callback is not under `src/`; per the spec's transport contract it only
delivers the event, so it is modelled as contributing no output.) -/
def wahoo_connect_failed : ConnectFailedBehavior :=
  { log_level := LOGGING_DEBUG
    exits := true
    reconnect_attempts := 0 }

/-- A log record is emitted to the handlers (file + terminal) only when its
level reaches the logger's configured level. -/
def operator_visible (b : ConnectFailedBehavior) : Bool :=
  logger_level ≤ b.log_level

/-- Embeds the level of the log record emitted by
`WahooDevice.connect_succeeded` (`logger.info("[%s] Connected")`) — the
success path logs at INFO. -/
def wahoo_connect_succeeded_log_level : Nat := LOGGING_INFO

/-- Decidable equality for `Except` results, so concrete runs can be checked
by `decide`. -/
instance {ε α : Type} [DecidableEq ε] [DecidableEq α] : DecidableEq (Except ε α) := fun x y =>
  match x, y with
  | .error i, .error j => if h : i = j then .isTrue (by rw [h]) else .isFalse (by simp [h])
  | .error _, .ok _ => .isFalse (by simp)
  | .ok _, .error _ => .isFalse (by simp)
  | .ok i, .ok j => if h : i = j then .isTrue (by rw [h]) else .isFalse (by simp [h])

/-- The channel state right after an accepted `submit` of value `v`:
`write_value` has recorded the pending value/bytes, reset the termination flag
and the failure counter. -/
def after_submit (s : SubState) (v : ℚ) : SubState :=
  { s with newInternalValue := some v
           newWriteValue := some (INCLINE_CONTROL_OP_CODE :: convert_incline_to_op_value v)
           terminate_write := false
           write_timeout_count := 0 }

/-- The channel state right after a `WRITE_SUCCESS` acknowledgement: the
pending value is committed and the write thread is told to terminate. -/
def after_commit (s : SubState) : SubState :=
  { s with terminate_write := true, internalValue := s.newInternalValue }

theorem readByte_ok (v : List Nat) (i : Nat) (h : i < v.length) :
    ∃ b, readByte v i = .ok b := by
  refine ⟨v[i], ?_⟩
  simp [readByte, List.getElem?_eq_getElem h]

theorem readU16_ok (v : List Nat) (off : Nat) (h : off + 2 ≤ v.length) :
    ∃ x, readU16 v off = .ok x := by
  obtain ⟨hi, hhi⟩ := readByte_ok v (off + 1) (by omega)
  obtain ⟨lo, hlo⟩ := readByte_ok v off (by omega)
  exact ⟨(hi <<< 8) + lo, by simp [readU16, hhi, hlo]⟩

theorem readU24_ok (v : List Nat) (off : Nat) (h : off + 3 ≤ v.length) :
    ∃ x, readU24 v off = .ok x := by
  obtain ⟨b2, h2⟩ := readByte_ok v (off + 2) (by omega)
  obtain ⟨b1, h1⟩ := readByte_ok v (off + 1) (by omega)
  obtain ⟨b0, h0⟩ := readByte_ok v off (by omega)
  exact ⟨(b2 <<< 16) + (b1 <<< 8) + b0, by simp [readU24, h2, h1, h0]⟩

theorem pull_instantaneous_speed_ok (f : WahooFlags) (v : List Nat)
    (s : WahooState) (off : Nat) (h : f.instSpeed = true → off + 2 ≤ v.length) :
    ∃ s', pull_instantaneous_speed f v s off =
      .ok (s', off + (if f.instSpeed then 2 else 0)) := by
  unfold pull_instantaneous_speed
  by_cases hf : f.instSpeed
  · obtain ⟨x, hx⟩ := readU16_ok v off (h hf)
    simp only [hf, if_true, hx]
    exact ⟨_, rfl⟩
  · simp only [hf, if_false, Bool.false_eq_true]
    exact ⟨s, rfl⟩

theorem pull_average_speed_ok (f : WahooFlags) (v : List Nat)
    (s : WahooState) (off : Nat) (h : f.avgSpeed = true → off + 2 ≤ v.length) :
    ∃ s', pull_average_speed f v s off =
      .ok (s', off + (if f.avgSpeed then 2 else 0)) := by
  unfold pull_average_speed
  by_cases hf : f.avgSpeed
  · obtain ⟨x, hx⟩ := readU16_ok v off (h hf)
    simp only [hf, if_true, hx]
    exact ⟨_, rfl⟩
  · simp only [hf, if_false, Bool.false_eq_true]
    exact ⟨s, rfl⟩

theorem pull_instantaneous_cadence_ok (f : WahooFlags) (v : List Nat)
    (s : WahooState) (off : Nat) (h : f.instCadence = true → off + 2 ≤ v.length) :
    ∃ s', pull_instantaneous_cadence f v s off =
      .ok (s', off + (if f.instCadence then 2 else 0)) := by
  unfold pull_instantaneous_cadence
  by_cases hf : f.instCadence
  · obtain ⟨x, hx⟩ := readU16_ok v off (h hf)
    simp only [hf, if_true, hx]
    exact ⟨_, rfl⟩
  · simp only [hf, if_false, Bool.false_eq_true]
    exact ⟨s, rfl⟩

theorem pull_average_cadence_ok (f : WahooFlags) (v : List Nat)
    (s : WahooState) (off : Nat) (h : f.avgCadence = true → off + 2 ≤ v.length) :
    ∃ s', pull_average_cadence f v s off =
      .ok (s', off + (if f.avgCadence then 2 else 0)) := by
  unfold pull_average_cadence
  by_cases hf : f.avgCadence
  · obtain ⟨x, hx⟩ := readU16_ok v off (h hf)
    simp only [hf, if_true, hx]
    exact ⟨_, rfl⟩
  · simp only [hf, if_false, Bool.false_eq_true]
    exact ⟨s, rfl⟩

theorem pull_total_distance_ok (f : WahooFlags) (v : List Nat)
    (s : WahooState) (off : Nat) (h : f.totalDistance = true → off + 3 ≤ v.length) :
    ∃ s', pull_total_distance f v s off =
      .ok (s', off + (if f.totalDistance then 3 else 0)) := by
  unfold pull_total_distance
  by_cases hf : f.totalDistance
  · obtain ⟨x, hx⟩ := readU24_ok v off (h hf)
    simp only [hf, if_true, hx]
    exact ⟨_, rfl⟩
  · simp only [hf, if_false, Bool.false_eq_true]
    exact ⟨s, rfl⟩

theorem pull_resistance_level_ok (f : WahooFlags) (v : List Nat)
    (s : WahooState) (off : Nat) (h : f.resistanceLevel = true → off + 2 ≤ v.length) :
    ∃ s', pull_resistance_level f v s off =
      .ok (s', off + (if f.resistanceLevel then 2 else 0)) := by
  unfold pull_resistance_level
  by_cases hf : f.resistanceLevel
  · obtain ⟨x, hx⟩ := readU16_ok v off (h hf)
    simp only [hf, if_true, hx]
    exact ⟨_, rfl⟩
  · simp only [hf, if_false, Bool.false_eq_true]
    exact ⟨s, rfl⟩

theorem pull_instantaneous_power_ok (f : WahooFlags) (v : List Nat)
    (s : WahooState) (off : Nat) (h : f.instPower = true → off + 2 ≤ v.length) :
    ∃ s', pull_instantaneous_power f v s off =
      .ok (s', off + (if f.instPower then 2 else 0)) := by
  unfold pull_instantaneous_power
  by_cases hf : f.instPower
  · obtain ⟨x, hx⟩ := readU16_ok v off (h hf)
    simp only [hf, if_true, hx]
    exact ⟨_, rfl⟩
  · simp only [hf, if_false, Bool.false_eq_true]
    exact ⟨s, rfl⟩

theorem pull_average_power_ok (f : WahooFlags) (v : List Nat)
    (s : WahooState) (off : Nat) (h : f.avgPower = true → off + 2 ≤ v.length) :
    ∃ s', pull_average_power f v s off =
      .ok (s', off + (if f.avgPower then 2 else 0)) := by
  unfold pull_average_power
  by_cases hf : f.avgPower
  · obtain ⟨x, hx⟩ := readU16_ok v off (h hf)
    simp only [hf, if_true, hx]
    exact ⟨_, rfl⟩
  · simp only [hf, if_false, Bool.false_eq_true]
    exact ⟨s, rfl⟩

theorem pull_expended_energy_ok (f : WahooFlags) (v : List Nat)
    (s : WahooState) (off : Nat) (h : f.expendedEnergy = true → off + 5 ≤ v.length) :
    ∃ s', pull_expended_energy f v s off =
      .ok (s', off + (if f.expendedEnergy then 5 else 0)) := by
  unfold pull_expended_energy
  by_cases hf : f.expendedEnergy
  · obtain ⟨t, ht⟩ := readU16_ok v off (by have := h hf; omega)
    obtain ⟨hr, hhr⟩ := readU16_ok v (off + 2) (by have := h hf; omega)
    obtain ⟨m, hm⟩ := readByte_ok v (off + 4) (by have := h hf; omega)
    simp only [hf, if_true, ht, hhr, hm]
    exact ⟨_, rfl⟩
  · simp only [hf, if_false, Bool.false_eq_true]
    exact ⟨s, rfl⟩

theorem pull_heart_rate_ok (f : WahooFlags) (v : List Nat)
    (s : WahooState) (off : Nat) (h : f.heartRate = true → off + 1 ≤ v.length) :
    ∃ s', pull_heart_rate f v s off =
      .ok (s', off + (if f.heartRate then 1 else 0)) := by
  unfold pull_heart_rate
  by_cases hf : f.heartRate
  · obtain ⟨x, hx⟩ := readByte_ok v off (by have := h hf; omega)
    simp only [hf, if_true, hx]
    exact ⟨_, rfl⟩
  · simp only [hf, if_false, Bool.false_eq_true]
    exact ⟨s, rfl⟩

theorem pull_metabolic_equivalent_ok (f : WahooFlags) (v : List Nat)
    (s : WahooState) (off : Nat) (h : f.metabolicEquivalent = true → off + 1 ≤ v.length) :
    ∃ s', pull_metabolic_equivalent f v s off =
      .ok (s', off + (if f.metabolicEquivalent then 1 else 0)) := by
  unfold pull_metabolic_equivalent
  by_cases hf : f.metabolicEquivalent
  · obtain ⟨x, hx⟩ := readByte_ok v off (by have := h hf; omega)
    simp only [hf, if_true, hx]
    exact ⟨_, rfl⟩
  · simp only [hf, if_false, Bool.false_eq_true]
    exact ⟨s, rfl⟩

theorem pull_elapsed_time_ok (f : WahooFlags) (v : List Nat)
    (s : WahooState) (off : Nat) (h : f.elapsedTime = true → off + 2 ≤ v.length) :
    ∃ s', pull_elapsed_time f v s off =
      .ok (s', off + (if f.elapsedTime then 2 else 0)) := by
  unfold pull_elapsed_time
  by_cases hf : f.elapsedTime
  · obtain ⟨x, hx⟩ := readU16_ok v off (h hf)
    simp only [hf, if_true, hx]
    exact ⟨_, rfl⟩
  · simp only [hf, if_false, Bool.false_eq_true]
    exact ⟨s, rfl⟩

theorem pull_remaining_time_ok (f : WahooFlags) (v : List Nat)
    (s : WahooState) (off : Nat) (h : f.remainingTime = true → off + 2 ≤ v.length) :
    ∃ s', pull_remaining_time f v s off =
      .ok (s', off + (if f.remainingTime then 2 else 0)) := by
  unfold pull_remaining_time
  by_cases hf : f.remainingTime
  · obtain ⟨x, hx⟩ := readU16_ok v off (h hf)
    simp only [hf, if_true, hx]
    exact ⟨_, rfl⟩
  · simp only [hf, if_false, Bool.false_eq_true]
    exact ⟨s, rfl⟩

theorem pull_fields_ok (f : WahooFlags) (v : List Nat) (s : WahooState)
    (h : required_length f ≤ v.length) :
    ∃ s', pull_fields f v s 2 = .ok (s', required_length f) := by
  obtain ⟨s1, h1⟩ := pull_instantaneous_speed_ok f v s (2)
    (fun hf => by simp [required_length, hf] at h ⊢; omega)
  obtain ⟨s2, h2⟩ := pull_average_speed_ok f v s1 (2 + (if f.instSpeed then 2 else 0))
    (fun hf => by simp [required_length, hf] at h ⊢; omega)
  obtain ⟨s3, h3⟩ := pull_instantaneous_cadence_ok f v s2 (2 + (if f.instSpeed then 2 else 0) + (if f.avgSpeed then 2 else 0))
    (fun hf => by simp [required_length, hf] at h ⊢; omega)
  obtain ⟨s4, h4⟩ := pull_average_cadence_ok f v s3 (2 + (if f.instSpeed then 2 else 0) + (if f.avgSpeed then 2 else 0) + (if f.instCadence then 2 else 0))
    (fun hf => by simp [required_length, hf] at h ⊢; omega)
  obtain ⟨s5, h5⟩ := pull_total_distance_ok f v s4 (2 + (if f.instSpeed then 2 else 0) + (if f.avgSpeed then 2 else 0) + (if f.instCadence then 2 else 0) + (if f.avgCadence then 2 else 0))
    (fun hf => by simp [required_length, hf] at h ⊢; omega)
  obtain ⟨s6, h6⟩ := pull_resistance_level_ok f v s5 (2 + (if f.instSpeed then 2 else 0) + (if f.avgSpeed then 2 else 0) + (if f.instCadence then 2 else 0) + (if f.avgCadence then 2 else 0) + (if f.totalDistance then 3 else 0))
    (fun hf => by simp [required_length, hf] at h ⊢; omega)
  obtain ⟨s7, h7⟩ := pull_instantaneous_power_ok f v s6 (2 + (if f.instSpeed then 2 else 0) + (if f.avgSpeed then 2 else 0) + (if f.instCadence then 2 else 0) + (if f.avgCadence then 2 else 0) + (if f.totalDistance then 3 else 0) + (if f.resistanceLevel then 2 else 0))
    (fun hf => by simp [required_length, hf] at h ⊢; omega)
  obtain ⟨s8, h8⟩ := pull_average_power_ok f v s7 (2 + (if f.instSpeed then 2 else 0) + (if f.avgSpeed then 2 else 0) + (if f.instCadence then 2 else 0) + (if f.avgCadence then 2 else 0) + (if f.totalDistance then 3 else 0) + (if f.resistanceLevel then 2 else 0) + (if f.instPower then 2 else 0))
    (fun hf => by simp [required_length, hf] at h ⊢; omega)
  obtain ⟨s9, h9⟩ := pull_expended_energy_ok f v s8 (2 + (if f.instSpeed then 2 else 0) + (if f.avgSpeed then 2 else 0) + (if f.instCadence then 2 else 0) + (if f.avgCadence then 2 else 0) + (if f.totalDistance then 3 else 0) + (if f.resistanceLevel then 2 else 0) + (if f.instPower then 2 else 0) + (if f.avgPower then 2 else 0))
    (fun hf => by simp [required_length, hf] at h ⊢; omega)
  obtain ⟨s10, h10⟩ := pull_heart_rate_ok f v s9 (2 + (if f.instSpeed then 2 else 0) + (if f.avgSpeed then 2 else 0) + (if f.instCadence then 2 else 0) + (if f.avgCadence then 2 else 0) + (if f.totalDistance then 3 else 0) + (if f.resistanceLevel then 2 else 0) + (if f.instPower then 2 else 0) + (if f.avgPower then 2 else 0) + (if f.expendedEnergy then 5 else 0))
    (fun hf => by simp [required_length, hf] at h ⊢; omega)
  obtain ⟨s11, h11⟩ := pull_metabolic_equivalent_ok f v s10 (2 + (if f.instSpeed then 2 else 0) + (if f.avgSpeed then 2 else 0) + (if f.instCadence then 2 else 0) + (if f.avgCadence then 2 else 0) + (if f.totalDistance then 3 else 0) + (if f.resistanceLevel then 2 else 0) + (if f.instPower then 2 else 0) + (if f.avgPower then 2 else 0) + (if f.expendedEnergy then 5 else 0) + (if f.heartRate then 1 else 0))
    (fun hf => by simp [required_length, hf] at h ⊢; omega)
  obtain ⟨s12, h12⟩ := pull_elapsed_time_ok f v s11 (2 + (if f.instSpeed then 2 else 0) + (if f.avgSpeed then 2 else 0) + (if f.instCadence then 2 else 0) + (if f.avgCadence then 2 else 0) + (if f.totalDistance then 3 else 0) + (if f.resistanceLevel then 2 else 0) + (if f.instPower then 2 else 0) + (if f.avgPower then 2 else 0) + (if f.expendedEnergy then 5 else 0) + (if f.heartRate then 1 else 0) + (if f.metabolicEquivalent then 1 else 0))
    (fun hf => by simp [required_length, hf] at h ⊢; omega)
  obtain ⟨s13, h13⟩ := pull_remaining_time_ok f v s12 (2 + (if f.instSpeed then 2 else 0) + (if f.avgSpeed then 2 else 0) + (if f.instCadence then 2 else 0) + (if f.avgCadence then 2 else 0) + (if f.totalDistance then 3 else 0) + (if f.resistanceLevel then 2 else 0) + (if f.instPower then 2 else 0) + (if f.avgPower then 2 else 0) + (if f.expendedEnergy then 5 else 0) + (if f.heartRate then 1 else 0) + (if f.metabolicEquivalent then 1 else 0) + (if f.elapsedTime then 2 else 0))
    (fun hf => by simp [required_length, hf] at h ⊢; omega)
  refine ⟨s13, ?_⟩
  simp only [pull_fields, h1, h2, h3, h4, h5, h6, h7, h8, h9, h10, h11, h12, h13]
  simp only [Except.ok.injEq, Prod.mk.injEq, true_and]
  simp only [required_length]

theorem readByte_cases (v : List Nat) (i : Nat) :
    readByte v i = .error (.indexError i) ∨ ∃ b, readByte v i = .ok b := by
  unfold readByte
  cases hv : v.get? i with
  | none => exact .inl rfl
  | some b => exact .inr ⟨b, rfl⟩

theorem readByte_not_attr (v : List Nat) (i : Nat) (a : AttrName) :
    readByte v i ≠ .error (.attributeError a) := by
  rcases readByte_cases v i with h | ⟨b, h⟩ <;> simp [h]

theorem readU16_not_attr (v : List Nat) (off : Nat) (a : AttrName) :
    readU16 v off ≠ .error (.attributeError a) := by
  unfold readU16
  rcases readByte_cases v (off + 1) with h1 | ⟨b1, h1⟩ <;> rw [h1]
  · simp
  · rcases readByte_cases v off with h0 | ⟨b0, h0⟩ <;> rw [h0] <;> simp

theorem rr_intervals_no_attr (v : List Nat) (i : Nat) (a : AttrName) :
    rr_intervals v i ≠ .error (.attributeError a) := by
  generalize hk : v.length - i = k
  induction k using Nat.strong_induction_on generalizing i with
  | _ k ih =>
    rw [rr_intervals]
    by_cases hi : i < v.length
    · rw [dif_pos hi]
      rcases readByte_cases v (i + 1) with h1 | ⟨b1, h1⟩ <;> rw [h1]
      · simp
      · rcases readByte_cases v i with h0 | ⟨b0, h0⟩ <;> rw [h0]
        · simp
        · cases hr : rr_intervals v (i + 2) with
          | error e =>
            have hne := ih (v.length - (i + 2)) (by omega) (i + 2) rfl
            rw [hr] at hne
            simpa using fun he => hne (by rw [he])
          | ok rest => simp [hr]
    · rw [dif_neg hi]
      simp

theorem readU16_error (v : List Nat) (off : Nat) (e : PyErr)
    (h : readU16 v off = .error e) :
    e = .indexError (off + 1) ∨ e = .indexError off := by
  unfold readU16 at h
  rcases readByte_cases v (off + 1) with h1 | ⟨b1, h1⟩ <;> rw [h1] at h
  · simp at h
    exact .inl h.symm
  · rcases readByte_cases v off with h0 | ⟨b0, h0⟩ <;> rw [h0] at h
    · simp at h
      exact .inr h.symm
    · simp at h

theorem tickr_body_no_attr (s : TickrState) (v : List Nat) (hr off : Nat)
    (ee rr : Bool) (hhr : hr ≠ 0) (a : AttrName) :
    tickr_body s v hr off ee rr ≠ .error (.attributeError a) := by
  unfold tickr_body
  rw [if_neg hhr]
  cases hee : ee with
  | true =>
    cases h16 : readU16 v off with
    | error e =>
      rcases readU16_error v off e h16 with he | he <;> simp [h16, he]
    | ok x =>
      cases hrr : rr with
      | true =>
        cases hri : rr_intervals v (off + 2) with
        | error e =>
          have hni := rr_intervals_no_attr v (off + 2) a
          rw [hri] at hni
          simp [h16, hri]
          intro he
          exact hni (by rw [he])
        | ok l => simp [h16, hri]
      | false => simp [h16]
  | false =>
    cases hrr : rr with
    | true =>
      cases hri : rr_intervals v off with
      | error e =>
        have hni := rr_intervals_no_attr v off a
        rw [hri] at hni
        simp [hri]
        intro he
        exact hni (by rw [he])
      | ok l => simp [hri]
    | false => simp

theorem hr_step_zero_nolimit (c L : Nat) (hne : ¬(c + 1 = L)) :
    hr_characteristic_value_updated ⟨c, L⟩ [0, 0] = .ok (⟨c + 1, L⟩, []) := by
  have hrb : readByte [0, 0] 1 = .ok 0 := rfl
  simp [hr_characteristic_value_updated, hrb, hne]

theorem hr_step_zero_limit (c L : Nat) (heq : c + 1 = L) :
    hr_characteristic_value_updated ⟨c, L⟩ [0, 0] = .ok (⟨0, L⟩, [.disconnect]) := by
  have hrb : readByte [0, 0] 1 = .ok 0 := rfl
  simp [hr_characteristic_value_updated, hrb, heq]

theorem hr_run_zero_streak (k : Nat) : ∀ (c L : Nat), 0 < k → c + k = L →
    hr_run ⟨c, L⟩ (List.replicate k [0, 0]) = .ok (⟨0, L⟩, [.disconnect]) := by
  induction k with
  | zero => omega
  | succ k ih =>
    intro c L _ hck
    by_cases hk0 : k = 0
    · subst hk0
      rw [List.replicate_succ, List.replicate_zero]
      simp [hr_run, hr_step_zero_limit c L (by omega)]
    · rw [List.replicate_succ]
      simp only [hr_run, hr_step_zero_nolimit c L (by omega)]
      rw [ih (c + 1) L (by omega) (by omega)]
      simp

theorem wahoo_publish_no_disconnect (s : WahooState) :
    WahooAction.disconnect ∉ wahoo_publish s := by
  unfold wahoo_publish
  by_cases h1 : s.flags.instSpeed <;> by_cases h2 : s.flags.instCadence <;>
    by_cases h3 : s.flags.instPower <;> simp [h1, h2, h3]

theorem publish_data_no_disconnect (s s2 : WahooState) (evs : List WahooAction)
    (h : publish_data s = .ok (s2, evs)) : WahooAction.disconnect ∉ evs := by
  unfold publish_data at h
  split at h
  · simp at h
  · split at h
    · simp only [Except.ok.injEq, Prod.mk.injEq] at h
      rw [← h.2]
      exact wahoo_publish_no_disconnect s
    · split at h
      · simp only [Except.ok.injEq, Prod.mk.injEq] at h
        rw [← h.2]
        exact wahoo_publish_no_disconnect s
      · simp only [Except.ok.injEq, Prod.mk.injEq] at h
        rw [← h.2]
        simp

theorem climber_accepts (s : SubState) (v : ℚ)
    (hv : INCLINE_MIN ≤ v ∧ v ≤ INCLINE_MAX ∧ pymod v (1/2) = 0)
    (u : Nat) (hcp : s.controlPoint = some u) :
    climber_on_message s true v =
      (after_submit s v,
        [.write (INCLINE_CONTROL_OP_CODE :: convert_incline_to_op_value v)]) := by
  unfold climber_on_message write_value write_process after_submit
  rw [if_pos hv]
  simp [hcp]

theorem climber_rejects (s : SubState) (v : ℚ)
    (hv : ¬(INCLINE_MIN ≤ v ∧ v ≤ INCLINE_MAX ∧ pymod v (1/2) = 0)) :
    climber_on_message s true v = (s, [.logRejection v]) := by
  unfold climber_on_message
  rw [if_neg hv]
  simp

theorem control_point_response_success (s : SubState) (u : Nat)
    (hcp : s.controlPoint = some u) :
    control_point_response s u .writeSuccess =
      (after_commit s, [.report s.newInternalValue]) := by
  unfold control_point_response after_commit
  rw [hcp]
  simp

theorem control_point_response_fail (s : SubState) (u : Nat)
    (hcp : s.controlPoint = some u) :
    control_point_response s u .writeFail =
      ({ s with write_timeout_count := s.write_timeout_count + 1 }, []) := by
  unfold control_point_response
  rw [hcp]
  simp

theorem cp_fail_run (k : Nat) : ∀ (s : SubState) (u : Nat), s.controlPoint = some u →
    sub_run s (List.replicate k (.response u .writeFail)) =
      ({ s with write_timeout_count := s.write_timeout_count + k }, []) := by
  induction k with
  | zero =>
    intro s u _
    simp [sub_run]
  | succ k ih =>
    intro s u hcp
    rw [List.replicate_succ]
    simp only [sub_run, sub_step, control_point_response_fail s u hcp]
    rw [ih { s with write_timeout_count := s.write_timeout_count + 1 } u hcp]
    have hc : s.write_timeout_count + 1 + k = s.write_timeout_count + (k + 1) := by omega
    simp [hc]

theorem sub_run_cons (s : SubState) (e : SubEvent) (es : List SubEvent) :
    sub_run s (e :: es) =
      ((sub_run (sub_step s e).1 es).1, (sub_step s e).2 ++ (sub_run (sub_step s e).1 es).2) :=
  rfl

/-- C1 (counterexample): on a ready incline channel, submit 1 then submit 2 and
let both write acknowledgements arrive.  The committed value is 2, but the
acknowledgement of the superseded first attempt is **not** ignored: two
success reports are emitted, refuting "the acknowledgement belonging to the
superseded attempt A has no effect: it neither changes the committed value nor
emits an additional success report, being matched only against the current
attempt_id" — the code matches responses only by characteristic uuid and keeps
no attempt identifier. -/
theorem c1_counterexample :
    (sub_run ready_channel [.message true 1, .message true 2,
        .response 7 .writeSuccess, .response 7 .writeSuccess]).1.internalValue = some 2 ∧
    count_reports (sub_run ready_channel [.message true 1, .message true 2,
        .response 7 .writeSuccess, .response 7 .writeSuccess]).2 = 2 := by
  have hcp : ready_channel.controlPoint = some 7 := rfl
  have h1 : INCLINE_MIN ≤ (1:ℚ) ∧ (1:ℚ) ≤ INCLINE_MAX ∧ pymod 1 (1/2) = 0 := by
    norm_num [INCLINE_MIN, INCLINE_MAX, pymod]
  have h2 : INCLINE_MIN ≤ (2:ℚ) ∧ (2:ℚ) ≤ INCLINE_MAX ∧ pymod 2 (1/2) = 0 := by
    norm_num [INCLINE_MIN, INCLINE_MAX, pymod]
  simp only [sub_run, sub_step, climber_accepts ready_channel 1 h1 7 hcp,
    climber_accepts (after_submit ready_channel 1) 2 h2 7 hcp,
    control_point_response_success (after_submit (after_submit ready_channel 1) 2) 7 hcp,
    control_point_response_success
      (after_commit (after_submit (after_submit ready_channel 1) 2)) 7 hcp]
  simp [after_submit, after_commit, count_reports]

/-- C1 (amended): submitting A then B on the same ready channel and receiving
both acknowledgements (they are indistinguishable, so arrival order is moot)
commits exactly one value, B, and never A; however each of the two
acknowledgements — including the one belonging to the superseded attempt —
commits the current pending value B and emits a success report carrying B,
because acknowledgements are matched only by control-point characteristic
identity, not by any attempt_id. -/
theorem c1_amended (s : SubState) (u : Nat) (A B : ℚ)
    (hcp : s.controlPoint = some u)
    (hA : INCLINE_MIN ≤ A ∧ A ≤ INCLINE_MAX ∧ pymod A (1/2) = 0)
    (hB : INCLINE_MIN ≤ B ∧ B ≤ INCLINE_MAX ∧ pymod B (1/2) = 0) :
    (sub_run s [.message true A, .message true B,
        .response u .writeSuccess, .response u .writeSuccess]).1.internalValue = some B ∧
    (sub_run s [.message true A, .message true B,
        .response u .writeSuccess, .response u .writeSuccess]).2 =
      [.write (INCLINE_CONTROL_OP_CODE :: convert_incline_to_op_value A),
       .write (INCLINE_CONTROL_OP_CODE :: convert_incline_to_op_value B),
       .report (some B), .report (some B)] := by
  simp only [sub_run, sub_step, climber_accepts s A hA u hcp,
    climber_accepts (after_submit s A) B hB u hcp,
    control_point_response_success (after_submit (after_submit s A) B) u hcp,
    control_point_response_success (after_commit (after_submit (after_submit s A) B)) u hcp]
  simp [after_submit, after_commit]

/-- C1 (witness): the amended statement at the concrete ready channel with
A = 1 and B = 2. -/
theorem c1_witness :
    (sub_run ready_channel [.message true 1, .message true 2,
        .response 7 .writeSuccess, .response 7 .writeSuccess]).1.internalValue = some 2 ∧
    (sub_run ready_channel [.message true 1, .message true 2,
        .response 7 .writeSuccess, .response 7 .writeSuccess]).2 =
      [.write (INCLINE_CONTROL_OP_CODE :: convert_incline_to_op_value 1),
       .write (INCLINE_CONTROL_OP_CODE :: convert_incline_to_op_value 2),
       .report (some 2), .report (some 2)] :=
  c1_amended ready_channel 7 1 2 rfl
    (by norm_num [INCLINE_MIN, INCLINE_MAX, pymod])
    (by norm_num [INCLINE_MIN, INCLINE_MAX, pymod])

/-- C2 (code behavior): on any channel with its control point discovered,
submitting any valid value and then delivering any number k of `write-failed`
acknowledgements — below, at, or beyond the `_TIMEOUT` of 10 — issues exactly
one transport write in total and leaves the failure counter at k:
`write_process` runs once per submit (an `if`, not a loop) and the
`WRITE_FAIL` branch of `control_point_response` only increments the counter,
which grows past 10 unbounded.  The claimed reissue-while-below-10 and
stop-after-exactly-10 behavior does not exist in the code, contradicting the
code's own docstrings ("Attempt to write the new device value until
successful or forced to terminate", "on failed write try writing again until
timeout"). -/
theorem c2_code_behavior (s : SubState) (u : Nat) (v : ℚ) (k : Nat)
    (hcp : s.controlPoint = some u)
    (hv : INCLINE_MIN ≤ v ∧ v ≤ INCLINE_MAX ∧ pymod v (1/2) = 0) :
    count_writes (sub_run s
        (.message true v :: List.replicate k (.response u .writeFail))).2 = 1 ∧
    (sub_run s
        (.message true v :: List.replicate k (.response u .writeFail))).1.write_timeout_count
      = k := by
  rw [sub_run_cons]
  simp only [sub_step, climber_accepts s v hv u hcp]
  rw [cp_fail_run k (after_submit s v) u hcp]
  simp [after_submit, count_writes]

/-- C2 (witness): the code behavior at the failing input — the ready incline
channel, submit 5, then twelve consecutive `write-failed` acknowledgements:
one write in total, counter 12. -/
theorem c2_witness :
    count_writes (sub_run ready_channel
        (.message true 5 :: List.replicate 12 (.response 7 .writeFail))).2 = 1 ∧
    (sub_run ready_channel
        (.message true 5 :: List.replicate 12 (.response 7 .writeFail))).1.write_timeout_count
      = 12 :=
  c2_code_behavior ready_channel 7 5 12 rfl
    (by norm_num [INCLINE_MIN, INCLINE_MAX, pymod])

/-- C6: a control channel's committed value (`_internal_value`) changes only
when handling a `WRITE_SUCCESS` response whose characteristic uuid matches the
channel's own control point; inbound command messages, issued writes, failed
writes and notification responses never change it. -/
theorem c6_committed_only_on_ack (s : SubState) (e : SubEvent)
    (h : (sub_step s e).1.internalValue ≠ s.internalValue) :
    ∃ u, e = .response u .writeSuccess ∧ s.controlPoint = some u := by
  cases e with
  | message t v =>
    exfalso
    apply h
    show (climber_on_message s t v).1.internalValue = s.internalValue
    cases t with
    | false => rfl
    | true =>
      by_cases hv : INCLINE_MIN ≤ v ∧ v ≤ INCLINE_MAX ∧ pymod v (1/2) = 0
      · unfold climber_on_message write_value write_process
        rw [if_pos hv]
        cases hcp : s.controlPoint <;> simp [hcp]
      · rw [climber_rejects s v hv]
  | response u rt =>
    cases hcp : s.controlPoint with
    | none =>
      exfalso
      apply h
      show (control_point_response s u rt).1.internalValue = s.internalValue
      unfold control_point_response
      rw [hcp]
    | some cp =>
      by_cases hu : u ≠ cp
      · exfalso
        apply h
        show (control_point_response s u rt).1.internalValue = s.internalValue
        unfold control_point_response
        simp only [hcp]
        rw [if_pos hu]
      · cases rt with
        | writeSuccess =>
          refine ⟨u, rfl, ?_⟩
          have hu2 : u = cp := by simpa using hu
          rw [hu2]
        | writeFail =>
          exfalso
          apply h
          show (control_point_response s u .writeFail).1.internalValue = s.internalValue
          unfold control_point_response
          simp only [hcp]
          rw [if_neg hu]
        | notificationSuccess =>
          exfalso
          apply h
          show (control_point_response s u .notificationSuccess).1.internalValue = s.internalValue
          unfold control_point_response
          simp only [hcp]
          rw [if_neg hu]
        | notificationFail =>
          exfalso
          apply h
          show (control_point_response s u .notificationFail).1.internalValue = s.internalValue
          unfold control_point_response
          simp only [hcp]
          rw [if_neg hu]

/-- C6 (witness): a concrete state whose committed value does change — a
matching `WRITE_SUCCESS` on the channel's own control point. -/
theorem c6_witness :
    (sub_step ⟨none, some 3, none, false, 0, some 7⟩ (.response 7 .writeSuccess)).1.internalValue ≠
      (⟨none, some 3, none, false, 0, some 7⟩ : SubState).internalValue ∧
    ∃ u, (SubEvent.response 7 .writeSuccess) = SubEvent.response u .writeSuccess ∧
      (⟨none, some 3, none, false, 0, some 7⟩ : SubState).controlPoint = some u :=
  ⟨by decide, c6_committed_only_on_ack ⟨none, some 3, none, false, 0, some 7⟩
    (.response 7 .writeSuccess) (by decide)⟩

/-- C7: on a channel whose control point has been discovered, incline values
of exactly `INCLINE_MIN` and exactly `INCLINE_MAX` are accepted and written to
the transport as the opcode byte plus the encoded payload, while **every**
value that is not a multiple of 0.5 — that is, every `v` with
`v % 0.5 ≠ 0`, such as `INCLINE_MIN + 0.3` — is rejected with the
`MQTT COMMAND FAIL` validation log (naming the range, resolution and offending
value) and no transport write is ever issued for it. -/
theorem c7_boundary (s : SubState) (u : Nat) (hcp : s.controlPoint = some u) :
    climber_on_message s true INCLINE_MIN =
      (after_submit s INCLINE_MIN,
        [.write (INCLINE_CONTROL_OP_CODE :: convert_incline_to_op_value INCLINE_MIN)]) ∧
    climber_on_message s true INCLINE_MAX =
      (after_submit s INCLINE_MAX,
        [.write (INCLINE_CONTROL_OP_CODE :: convert_incline_to_op_value INCLINE_MAX)]) ∧
    ∀ v : ℚ, pymod v (1/2) ≠ 0 →
      climber_on_message s true v = (s, [.logRejection v]) ∧
      count_writes (climber_on_message s true v).2 = 0 := by
  refine ⟨climber_accepts s INCLINE_MIN ?_ u hcp, climber_accepts s INCLINE_MAX ?_ u hcp, ?_⟩
  · norm_num [INCLINE_MIN, INCLINE_MAX, pymod]
  · norm_num [INCLINE_MIN, INCLINE_MAX, pymod]
  · intro v hv
    have hrej := climber_rejects s v (fun hc => hv hc.2.2)
    refine ⟨hrej, ?_⟩
    rw [hrej]
    simp [count_writes]

/-- C7 (witness): the boundary behavior at the concrete ready channel, with
the universal rejection instantiated at the claim's example
`INCLINE_MIN + 0.3`. -/
theorem c7_witness :
    climber_on_message ready_channel true INCLINE_MIN =
      (after_submit ready_channel INCLINE_MIN,
        [.write (INCLINE_CONTROL_OP_CODE :: convert_incline_to_op_value INCLINE_MIN)]) ∧
    climber_on_message ready_channel true INCLINE_MAX =
      (after_submit ready_channel INCLINE_MAX,
        [.write (INCLINE_CONTROL_OP_CODE :: convert_incline_to_op_value INCLINE_MAX)]) ∧
    pymod (INCLINE_MIN + 3/10) (1/2) ≠ 0 ∧
    climber_on_message ready_channel true (INCLINE_MIN + 3/10) =
      (ready_channel, [.logRejection (INCLINE_MIN + 3/10)]) ∧
    count_writes (climber_on_message ready_channel true (INCLINE_MIN + 3/10)).2 = 0 := by
  have h := c7_boundary ready_channel 7 rfl
  have hm : pymod (INCLINE_MIN + 3/10) (1/2) ≠ 0 := by norm_num [INCLINE_MIN, pymod]
  exact ⟨h.1, h.2.1, hm, (h.2.2 _ hm).1, (h.2.2 _ hm).2⟩

/-- C3 (counterexample): the 2-byte packet `[0x00, 0x00]` declares, by its
cleared bit 0, an instantaneous-speed field; decoding performs an
out-of-bounds read at index 3 (an IndexError escaping the decoder), refuting
"the decoder returns a tagged result ... and never raises an exception past
its caller; in particular a packet shorter than its flag bits imply does not
cause an out-of-bounds access". -/
theorem c3_counterexample :
    decode_packet initWahooState [0, 0] = .error (.indexError 3) := by decide

/-- C3 (amended): the decoder completes without raising on every packet whose
length is at least the length its flag bits imply (an offset/length mismatch
is then only logged, not raised); a shorter packet can instead raise an
IndexError that escapes the decoder, as the counterexample shows. -/
theorem c3_amended (v : List Nat) (f : WahooFlags) (s : WahooState)
    (hrep : reported_data v = .ok f) (hlen : required_length f ≤ v.length) :
    (decode_packet s v).isOk = true := by
  obtain ⟨s', h'⟩ := pull_fields_ok f v { s with flags := f } hlen
  simp [decode_packet, hrep, pull_value, h', Except.isOk, Except.toBool]

/-- C3 (witness): a concrete packet exactly as long as its flags imply
decodes without raising. -/
theorem c3_witness : (decode_packet initWahooState [4, 0, 0, 2, 132, 3]).isOk = true :=
  c3_amended [4, 0, 0, 2, 132, 3]
    ⟨true, false, true, false, false, false, false, false, false, false, false, false, false⟩
    initWahooState rfl (by decide)

/-- C4 (counterexample): the packet `[5, 0, 132, 3, 0]` carries one trailing
byte beyond what its flags imply, so the final offset (4) differs from the
packet length (5) and the parse error is reported — yet the publish step still
runs and publishes the parsed cadence, refuting "the sample is discarded, no
publish occurs". -/
theorem c4_counterexample :
    (match process_data initWahooState [5, 0, 132, 3, 0] with
     | .ok (_, pe, evs) => pe = true ∧ evs ≠ []
     | .error _ => False) := by
  have hrep : reported_data [5, 0, 132, 3, 0] =
      .ok ⟨false, false, true, false, false, false, false, false, false,
        false, false, false, false⟩ := rfl
  have h1 : readU16 [5, 0, 132, 3, 0] 2 = .ok 900 := rfl
  simp [process_data, hrep, pull_value, pull_fields,
    pull_instantaneous_speed, pull_average_speed, pull_instantaneous_cadence,
    pull_average_cadence, pull_total_distance, pull_resistance_level,
    pull_instantaneous_power, pull_average_power, pull_expended_energy,
    pull_heart_rate, pull_metabolic_equivalent, pull_elapsed_time,
    pull_remaining_time, publish_data, wahoo_publish, initWahooState, h1]

/-- C4 (amended): when the final read offset differs from the packet length,
the decoder reports a parse error (the logged `ERROR: Payload was not parsed
correctly`) and returns early, but the already-parsed field values are
retained and `publish_data` still runs on them — publishing is not
suppressed — and the session remains connected (no disconnect is emitted). -/
theorem c4_amended (s : WahooState) (v : List Nat) (f : WahooFlags)
    (s1 s2 : WahooState) (evs : List WahooAction)
    (hrep : reported_data v = .ok f)
    (hpull : pull_value f { s with flags := f } v = .ok (s1, true))
    (hpub : publish_data s1 = .ok (s2, evs)) :
    process_data s v = .ok (s2, true, evs) ∧ WahooAction.disconnect ∉ evs := by
  constructor
  · simp only [process_data, hrep, hpull, hpub]
  · exact publish_data_no_disconnect s1 s2 evs hpub

/-- C4 (witness): the amended statement at the concrete packet
`[5, 0, 132, 3, 0]` — parse error reported, cadence 90 still published. -/
theorem c4_witness :
    process_data initWahooState [5, 0, 132, 3, 0] =
      .ok ({ initWahooState with
               flags := ⟨false, false, true, false, false, false, false, false, false,
                 false, false, false, false⟩
               instantaneous_cadence := some 90 },
            true, [.pubCadence (some 90)]) ∧
    WahooAction.disconnect ∉ [WahooAction.pubCadence (some 90)] :=
  c4_amended initWahooState [5, 0, 132, 3, 0]
    ⟨false, false, true, false, false, false, false, false, false,
      false, false, false, false⟩
    { initWahooState with
        flags := ⟨false, false, true, false, false, false, false, false, false,
          false, false, false, false⟩
        instantaneous_cadence := some 90 }
    { initWahooState with
        flags := ⟨false, false, true, false, false, false, false, false, false,
          false, false, false, false⟩
        instantaneous_cadence := some 90 }
    [.pubCadence (some 90)]
    rfl
    (by
      have h1 : readU16 [5, 0, 132, 3, 0] 2 = .ok 900 := rfl
      simp [pull_value, pull_fields,
        pull_instantaneous_speed, pull_average_speed, pull_instantaneous_cadence,
        pull_average_cadence, pull_total_distance, pull_resistance_level,
        pull_instantaneous_power, pull_average_power, pull_expended_energy,
        pull_heart_rate, pull_metabolic_equivalent, pull_elapsed_time,
        pull_remaining_time, initWahooState, h1]
      norm_num)
    (by simp [publish_data, wahoo_publish, initWahooState])

/-- C5 (counterexample): the Indoor Bike Data packet with flags declaring only
instantaneous speed (raw 512) and instantaneous cadence (raw 900) publishes a
speed of 512/100·5/18 = 64/45 ≈ 1.42 m/s — not the claimed 10.0 m/s — next to
cadence 90.0 rpm. -/
theorem c5_counterexample :
    (match process_data initWahooState [4, 0, 0, 2, 132, 3] with
     | .ok (_, _, evs) => evs = [.pubSpeed (some (64/45)), .pubCadence (some 90)] ∧
         (64 : ℚ) / 45 ≠ 10
     | .error _ => False) := by
  have hrep : reported_data [4, 0, 0, 2, 132, 3] =
      .ok ⟨true, false, true, false, false, false, false, false, false,
        false, false, false, false⟩ := rfl
  have h1 : readU16 [4, 0, 0, 2, 132, 3] 2 = .ok 512 := rfl
  have h2 : readU16 [4, 0, 0, 2, 132, 3] 4 = .ok 900 := rfl
  simp [process_data, hrep, pull_value, pull_fields,
    pull_instantaneous_speed, pull_average_speed, pull_instantaneous_cadence,
    pull_average_cadence, pull_total_distance, pull_resistance_level,
    pull_instantaneous_power, pull_average_power, pull_expended_energy,
    pull_heart_rate, pull_metabolic_equivalent, pull_elapsed_time,
    pull_remaining_time, publish_data, wahoo_publish, initWahooState, h1, h2]
  norm_num

/-- C5 (amended): processing that packet publishes exactly two report events
and no others — one carrying speed 512/100·5/18 = 64/45 ≈ 1.42 m/s (the
spec's "10.0 m/s" is inconsistent with its own ÷100 ×5/18 encoding) and one
carrying cadence 90.0 rpm — with no parse error. -/
theorem c5_amended :
    (match process_data initWahooState [4, 0, 0, 2, 132, 3] with
     | .ok (_, pe, evs) => pe = false ∧
         evs = [.pubSpeed (some (64/45)), .pubCadence (some 90)]
     | .error _ => False) := by
  have hrep : reported_data [4, 0, 0, 2, 132, 3] =
      .ok ⟨true, false, true, false, false, false, false, false, false,
        false, false, false, false⟩ := rfl
  have h1 : readU16 [4, 0, 0, 2, 132, 3] 2 = .ok 512 := rfl
  have h2 : readU16 [4, 0, 0, 2, 132, 3] 4 = .ok 900 := rfl
  simp [process_data, hrep, pull_value, pull_fields,
    pull_instantaneous_speed, pull_average_speed, pull_instantaneous_cadence,
    pull_average_cadence, pull_total_distance, pull_resistance_level,
    pull_instantaneous_power, pull_average_power, pull_expended_energy,
    pull_heart_rate, pull_metabolic_equivalent, pull_elapsed_time,
    pull_remaining_time, publish_data, wahoo_publish, initWahooState, h1, h2]
  norm_num

/-- C8: for any configured `zero_limit` L > 0, a run of exactly L consecutive
zero heart-rate samples from a freshly discovered device (counter 0) triggers
the disconnect exactly once — the action trace of the whole run is a single
disconnect — and the counter ends reset to 0; and on any nonzero reading the
counter is reset to 0 and the reading is published. -/
theorem c8_zero_streak (L : Nat) (hL : 0 < L) :
    hr_run ⟨0, L⟩ (List.replicate L [0, 0]) = .ok (⟨0, L⟩, [.disconnect]) ∧
    ∀ (s : HRState) (b hr : Nat), hr ≠ 0 →
      hr_characteristic_value_updated s [b, hr] =
        .ok ({ s with zeroCount := 0 }, [.publishHR hr]) := by
  constructor
  · exact hr_run_zero_streak L 0 L hL (by omega)
  · intro s b hr hhr
    have hrb : readByte [b, hr] 1 = .ok hr := rfl
    simp [hr_characteristic_value_updated, hrb, hhr]

/-- C8 (witness): the zero-streak behavior at the configured `zero_limit` of
10, and the counter reset on a concrete nonzero reading of 72. -/
theorem c8_witness :
    hr_run ⟨0, 10⟩ (List.replicate 10 [0, 0]) = .ok (⟨0, 10⟩, [.disconnect]) ∧
    hr_characteristic_value_updated ⟨3, 10⟩ [0, 72] = .ok (⟨0, 10⟩, [.publishHR 72]) :=
  ⟨(c8_zero_streak 10 (by norm_num)).1,
    by
      have h := (c8_zero_streak 10 (by norm_num)).2 ⟨3, 10⟩ 0 72 (by norm_num)
      simpa using h⟩

/-- C9 (code behavior at the failing input): `WahooDevice.connect_failed`
terminates the session (`sys.exit()`, zero reconnect attempts) — that half of
the claim holds — but its only log record is at DEBUG level (10), below the
logger's configured INFO threshold (20), so nothing is emitted to the
operator: the failure is swallowed, contradicting "the failure is made
visible to the operator rather than swallowed".  The logger does pass
INFO-level records (as `connect_succeeded` emits), so it is specifically the
DEBUG level of the failure record that hides it. -/
theorem c9_code_behavior :
    wahoo_connect_failed.exits = true ∧
    wahoo_connect_failed.reconnect_attempts = 0 ∧
    operator_visible wahoo_connect_failed = false ∧
    logger_level ≤ wahoo_connect_succeeded_log_level := by decide

/-- C10 (counterexample): a first heart-rate notification with a nonzero
reading — packet `[0, 60]`, flags 0, 8-bit heart rate 60 — does **not** raise
an AttributeError on a freshly constructed `TICKRDevice`: Python's
short-circuit of `heartrate == 0 and self.zeroCount >= self.zero_limit`
skips both attribute reads, the handler assigns `zeroCount = 0` and publishes
the reading, refuting "the first heart-rate-measurement notification ...
raises an AttributeError". -/
theorem c10_counterexample :
    tickr_characteristic_value_updated ⟨none, none⟩ [0, 60] =
      .ok (⟨some 0, none⟩, [.publish 60]) := by decide

/-- C10 (amended): on a `TICKRDevice` as constructed (neither `zeroCount` nor
`zero_limit` ever initialised), a notification whose parsed heart rate is 0
raises AttributeError on the `zeroCount` read when that attribute is unset,
while a notification with a nonzero heart rate never raises any
AttributeError — the short-circuit guard skips the attribute reads and the
nonzero branch assigns `zeroCount = 0` instead of reading it. -/
theorem c10_amended (s : TickrState) (v : List Nat) (b0 hr off : Nat)
    (h0 : readByte v 0 = .ok b0) (hhr : parse_heart_rate v b0 = .ok (hr, off)) :
    (hr = 0 → s.zeroCount = none →
      tickr_characteristic_value_updated s v = .error (.attributeError .zeroCount)) ∧
    (hr ≠ 0 → ∀ (a : AttrName),
      tickr_characteristic_value_updated s v ≠ .error (.attributeError a)) := by
  constructor
  · intro hz hnone
    unfold tickr_characteristic_value_updated
    simp only [h0, hhr]
    rw [if_pos hz]
    simp [getAttr, hnone]
  · intro hz a
    unfold tickr_characteristic_value_updated
    simp only [h0, hhr]
    rw [if_neg hz]
    exact tickr_body_no_attr s v hr off _ _ hz a

/-- C10 (witness): a zero-heart-rate first notification on the fresh device
raises AttributeError on `zeroCount`. -/
theorem c10_witness :
    tickr_characteristic_value_updated ⟨none, none⟩ [0, 0] =
      .error (.attributeError .zeroCount) :=
  (c10_amended ⟨none, none⟩ [0, 0] 0 0 2 rfl rfl).1 rfl rfl
